import Mathlib

/-!
Shallow embedding of `src/plot.py` (benchmark plotter).

The script reads a CSV into a pandas DataFrame (first column as index),
derives five column names from a statistic string, and renders two figures
of three axes each (latency, throughput, reciprocal throughput).

Modelling choices:
* numeric cell values are rationals (`ℚ`); pandas' elementwise division of
  equal-length series is `List.zipWith` division;
* a DataFrame is its index column plus an association list of named columns;
* `ax.plot(x, y, label=l)` is recorded as the pair `(l, y)`; each axis-setup
  function returns the list of series it plotted, `none` when a column lookup
  raises `KeyError`;
* `exit(1)` / `sys.exit(1)` with messages printed to stderr becomes the
  `exited` outcome carrying the printed messages (in print order) and the
  exit code;
* the file system is a function `String → Option DataFrame` standing for
  `pd.read_csv`; a `main` outcome that is the same for every file system
  formalises "the CSV is never read".
-/

namespace Plot

/-- The module-level constant `USAGE_STR` of plot.py. -/
def USAGE_STR : String :=
  "\nUSAGE: python plot.py CSV [STAT]\nGenerate benchmark plots from the given csv file\n   - CSV    path to the csv to plot\n   - STAT   one of min, mean, max (default to min)\n"

/-- The message printed by `main` when no input file is provided. -/
def NO_INPUT_ERROR_STR : String := "Error: no input file provided"

/-- The message printed by `get_column_to_plot` for an invalid statistic. -/
def STAT_ERROR_STR : String :=
  "ERROR: the provided statistic is not available.\nPlease, choose one between min, mean, max."

/-- A pandas DataFrame as produced by `pd.read_csv(csv, index_col=0)`:
the index column plus named data columns. -/
structure DataFrame where
  index : List ℚ
  cols : List (String × List ℚ)
deriving DecidableEq

/-- Column lookup `df[name]`: `none` models a `KeyError`. -/
def DataFrame.getCol (df : DataFrame) (name : String) : Option (List ℚ) :=
  (df.cols.find? (fun p => p.1 == name)).map (fun p => p.2)

/-- Elementwise division of two pandas series, as in `df.index / df[y]`. -/
def seriesDiv (xs ys : List ℚ) : List ℚ := List.zipWith (fun a b => a / b) xs ys

/-- A plotted series: its legend label (as passed to `ax.plot`) and its
y-values. -/
abbrev Series := Option String × List ℚ

/-- Embedding of `set_tsc_cycle_ax`: plots the raw column values for `y1`,
`y2` and, when present, `y3`; returns the plotted series in order. -/
def set_tsc_cycle_ax (df : DataFrame) (y1 label1 y2 label2 : String)
    (y3 label3 : Option String) : Option (List Series) :=
  match df.getCol y1, df.getCol y2, y3 with
  | some c1, some c2, none =>
    some [(some label1, c1), (some label2, c2)]
  | some c1, some c2, some y =>
    match df.getCol y with
    | some c3 => some [(some label1, c1), (some label2, c2), (label3, c3)]
    | none => none
  | _, _, _ => none

/-- Embedding of `set_throughput_ax`: plots `df.index / df[y]` for each
selected column. -/
def set_throughput_ax (df : DataFrame) (y1 label1 y2 label2 : String)
    (y3 label3 : Option String) : Option (List Series) :=
  match df.getCol y1, df.getCol y2, y3 with
  | some c1, some c2, none =>
    some [(some label1, seriesDiv df.index c1), (some label2, seriesDiv df.index c2)]
  | some c1, some c2, some y =>
    match df.getCol y with
    | some c3 =>
      some [(some label1, seriesDiv df.index c1), (some label2, seriesDiv df.index c2),
        (label3, seriesDiv df.index c3)]
    | none => none
  | _, _, _ => none

/-- Embedding of `set_reciprocal_throughput_ax`: plots `df[y] / df.index`
for each selected column. -/
def set_reciprocal_throughput_ax (df : DataFrame) (y1 label1 y2 label2 : String)
    (y3 label3 : Option String) : Option (List Series) :=
  match df.getCol y1, df.getCol y2, y3 with
  | some c1, some c2, none =>
    some [(some label1, seriesDiv c1 df.index), (some label2, seriesDiv c2 df.index)]
  | some c1, some c2, some y =>
    match df.getCol y with
    | some c3 =>
      some [(some label1, seriesDiv c1 df.index), (some label2, seriesDiv c2 df.index),
        (label3, seriesDiv c3 df.index)]
    | none => none
  | _, _, _ => none

/-- One figure produced by `plot_benchmark`: the three side-by-side axes. -/
structure Figure where
  latency : List Series
  throughput : List Series
  recip_throughput : List Series
deriving DecidableEq

/-- Embedding of `plot_benchmark`: one figure with the three views. -/
def plot_benchmark (df : DataFrame) (y1 label1 y2 label2 : String)
    (y3 label3 : Option String) : Option Figure := do
  let a1 ← set_tsc_cycle_ax df y1 label1 y2 label2 y3 label3
  let a2 ← set_throughput_ax df y1 label1 y2 label2 y3 label3
  let a3 ← set_reciprocal_throughput_ax df y1 label1 y2 label2 y3 label3
  pure ⟨a1, a2, a3⟩

/-- Python's `str.lower()` for the ASCII strings this script handles:
lowercase every character. -/
def pyLower (s : String) : String := ⟨s.data.map Char.toLower⟩

/-- Splits a character list at spaces, accumulating the current fragment. -/
def splitSpacesAux : List Char → List Char → List String
  | [], acc => [⟨acc.reverse⟩]
  | c :: cs, acc =>
    if c = ' ' then ⟨acc.reverse⟩ :: splitSpacesAux cs []
    else splitSpacesAux cs (c :: acc)

/-- Python's `str.split()` for strings whose only whitespace is the space
character: split on spaces and drop empty fragments. -/
def pySplit (s : String) : List String :=
  (splitSpacesAux s.data []).filter (fun t => t != "")

/-- Embedding of `get_column_to_plot`: validates the statistic
case-insensitively; on failure it prints the usage string and the error
message to stderr and exits with status 1 (the `error` case); on success it
builds the space-joined interpolated string and splits it. -/
def get_column_to_plot (stat : String) : Except (List String × Nat) (List String) :=
  if pyLower stat ∉ (["min", "mean", "max"] : List String) then
    .error ([USAGE_STR, STAT_ERROR_STR], 1)
  else
    .ok (pySplit ("std_" ++ pyLower stat ++
      " parse_integer_no_simd_" ++ pyLower stat ++
      " std_delimeter_" ++ pyLower stat ++
      " parse_integer_no_simd_delimeter_" ++ pyLower stat ++
      " parse_integer_simd_delimeter_" ++ pyLower stat))

/-- Observable outcome of a `main` invocation: explicit termination with
stderr messages and an exit code, an uncaught `pd.read_csv` error, an
uncaught column `KeyError` during plotting, or normal completion with the
figures shown. -/
inductive MainResult where
  | exited : List String → Nat → MainResult
  | csvError : String → MainResult
  | plotError : MainResult
  | ok : List Figure → MainResult
deriving DecidableEq

/-- The statistic `main` actually uses (plot.py lines 88-90): `sys.argv[2]`
when `len(sys.argv) == 3`, the default `"min"` otherwise. -/
def resolveTask (argv : List String) : String :=
  if argv.length = 3 then argv.getD 2 "" else "min"

/-- The body of `main` after argument resolution (plot.py lines 91-111):
derive the columns, read the CSV, render the two-series and then the
three-series comparison. -/
def runPlot (fs : String → Option DataFrame) (csv task : String) : MainResult :=
  match get_column_to_plot task with
  | .error (msgs, code) => .exited msgs code
  | .ok column_to_plot =>
    match fs csv with
    | none => .csvError csv
    | some df =>
      let y := fun i => column_to_plot.getD i ""
      match plot_benchmark df (y 0) ("naive method (" ++ task ++ ")")
          (y 1) ("no simd library parsing (" ++ task ++ ")") none none with
      | none => .plotError
      | some fig1 =>
        match plot_benchmark df (y 2) ("naive method (" ++ task ++ ")")
            (y 3) ("no simd library parsing (" ++ task ++ ")")
            (some (y 4)) (some ("simd library parsing (" ++ task ++ ")")) with
        | none => .plotError
        | some fig2 => .ok [fig1, fig2]

/-- Embedding of `main`: `argv` is the full `sys.argv` including the program
name. -/
def main (fs : String → Option DataFrame) (argv : List String) : MainResult :=
  if argv.length < 2 then .exited [USAGE_STR, NO_INPUT_ERROR_STR] 1
  else runPlot fs (argv.getD 1 "") (resolveTask argv)

/-- A sample benchmark table: index `[1, 2, 4]` with all five `_min`
columns; `std_min` is `[10, 20, 30]` as in the spec's worked example. -/
def dfEx : DataFrame :=
  ⟨[1, 2, 4],
   [("std_min", [10, 20, 30]),
    ("parse_integer_no_simd_min", [12, 22, 32]),
    ("std_delimeter_min", [14, 24, 34]),
    ("parse_integer_no_simd_delimeter_min", [16, 26, 36]),
    ("parse_integer_simd_delimeter_min", [18, 28, 38])]⟩

/-- A sample file system exposing `dfEx` at path `data.csv`. -/
def fsEx : String → Option DataFrame :=
  fun p => if p = "data.csv" then some dfEx else none

/-- Within range, an entry of an elementwise quotient is the quotient of the
entries. -/
lemma seriesDiv_getD (xs ys : List ℚ) (i : ℕ) (hx : i < xs.length) (hy : i < ys.length) :
    (seriesDiv xs ys).getD i 0 = xs.getD i 0 / ys.getD i 0 := by
  induction xs generalizing ys i with
  | nil => simp at hx
  | cons a as ih =>
    cases ys with
    | nil => simp at hy
    | cons b bs =>
      cases i with
      | zero => simp [seriesDiv]
      | succ n =>
        simp only [seriesDiv, List.zipWith_cons_cons, List.getD_cons_succ]
        exact ih bs n (by simpa using hx) (by simpa using hy)

/-- An out-of-range `getD` returns the default, so a nonzero entry is in
range. -/
lemma lt_length_of_getD_ne_zero (xs : List ℚ) (i : ℕ) (h : xs.getD i 0 ≠ 0) :
    i < xs.length := by
  by_contra hlen
  push_neg at hlen
  exact h (List.getD_eq_default _ _ hlen)

/-- At a row where both entries are nonzero, `xs/cs` and `cs/xs` multiply
to 1. -/
lemma seriesDiv_getD_mul_inv (xs cs : List ℚ) (i : ℕ)
    (hx : xs.getD i 0 ≠ 0) (hc : cs.getD i 0 ≠ 0) :
    (seriesDiv xs cs).getD i 0 * (seriesDiv cs xs).getD i 0 = 1 := by
  have hxl := lt_length_of_getD_ne_zero xs i hx
  have hcl := lt_length_of_getD_ne_zero cs i hc
  rw [seriesDiv_getD xs cs i hxl hcl, seriesDiv_getD cs xs i hcl hxl,
    div_mul_div_comm, mul_comm (xs.getD i 0) (cs.getD i 0)]
  exact div_self (mul_ne_zero hc hx)

/-- On a validated statistic, `get_column_to_plot` returns the five
interpolated names built from the lowercased statistic. -/
lemma gcp_ok (stat : String) (h : pyLower stat ∈ (["min", "mean", "max"] : List String)) :
    get_column_to_plot stat =
      .ok ["std_" ++ pyLower stat, "parse_integer_no_simd_" ++ pyLower stat,
        "std_delimeter_" ++ pyLower stat, "parse_integer_no_simd_delimeter_" ++ pyLower stat,
        "parse_integer_simd_delimeter_" ++ pyLower stat] := by
  simp only [List.mem_cons, List.not_mem_nil, or_false] at h
  rcases h with h | h | h <;> simp only [get_column_to_plot, h] <;> rfl

/-- When the CSV loads and all five derived columns are present, `runPlot`
completes with the two figures exactly as plot.py builds them: the first
comparing columns 1 and 2 with two series per view, the second comparing
columns 3, 4, 5 with three series per view, all labelled with the statistic
exactly as the user typed it. -/
lemma runPlot_ok (fs : String → Option DataFrame) (csv stat : String) (df : DataFrame)
    (c1 c2 c3 c4 c5 : List ℚ)
    (h : pyLower stat ∈ (["min", "mean", "max"] : List String))
    (hfs : fs csv = some df)
    (h1 : df.getCol ("std_" ++ pyLower stat) = some c1)
    (h2 : df.getCol ("parse_integer_no_simd_" ++ pyLower stat) = some c2)
    (h3 : df.getCol ("std_delimeter_" ++ pyLower stat) = some c3)
    (h4 : df.getCol ("parse_integer_no_simd_delimeter_" ++ pyLower stat) = some c4)
    (h5 : df.getCol ("parse_integer_simd_delimeter_" ++ pyLower stat) = some c5) :
    runPlot fs csv stat = .ok
      [⟨[(some ("naive method (" ++ stat ++ ")"), c1),
         (some ("no simd library parsing (" ++ stat ++ ")"), c2)],
        [(some ("naive method (" ++ stat ++ ")"), seriesDiv df.index c1),
         (some ("no simd library parsing (" ++ stat ++ ")"), seriesDiv df.index c2)],
        [(some ("naive method (" ++ stat ++ ")"), seriesDiv c1 df.index),
         (some ("no simd library parsing (" ++ stat ++ ")"), seriesDiv c2 df.index)]⟩,
       ⟨[(some ("naive method (" ++ stat ++ ")"), c3),
         (some ("no simd library parsing (" ++ stat ++ ")"), c4),
         (some ("simd library parsing (" ++ stat ++ ")"), c5)],
        [(some ("naive method (" ++ stat ++ ")"), seriesDiv df.index c3),
         (some ("no simd library parsing (" ++ stat ++ ")"), seriesDiv df.index c4),
         (some ("simd library parsing (" ++ stat ++ ")"), seriesDiv df.index c5)],
        [(some ("naive method (" ++ stat ++ ")"), seriesDiv c3 df.index),
         (some ("no simd library parsing (" ++ stat ++ ")"), seriesDiv c4 df.index),
         (some ("simd library parsing (" ++ stat ++ ")"), seriesDiv c5 df.index)]⟩] := by
  simp only [runPlot, gcp_ok stat h, hfs, plot_benchmark, set_tsc_cycle_ax,
    set_throughput_ax, set_reciprocal_throughput_ax,
    List.getD_cons_zero, List.getD_cons_succ, h1, h2, h3, h4, h5, Option.bind]
  rfl

example : dfEx.getCol "std_min" = some [10, 20, 30] := rfl

/-- C1: for every table and column selection, whenever the throughput and
reciprocal-throughput views render, every plotted throughput series is the
elementwise quotient index/column of some table column, the series at the
same position of the reciprocal view is column/index of that same column,
and at every row where the index value and the raw column value are both
nonzero the two plotted values are exact multiplicative inverses. -/
theorem C1_throughput_reciprocal_inverse
    (df : DataFrame) (y1 l1 y2 l2 : String) (y3 l3 : Option String)
    (ts rs : List Series)
    (ht : set_throughput_ax df y1 l1 y2 l2 y3 l3 = some ts)
    (hr : set_reciprocal_throughput_ax df y1 l1 y2 l2 y3 l3 = some rs)
    (k : ℕ) (hk : k < ts.length) :
    ∃ c : List ℚ, (∃ y, df.getCol y = some c) ∧
      (ts.getD k (none, [])).2 = seriesDiv df.index c ∧
      (rs.getD k (none, [])).2 = seriesDiv c df.index ∧
      ∀ i : ℕ, df.index.getD i 0 ≠ 0 → c.getD i 0 ≠ 0 →
        (ts.getD k (none, [])).2.getD i 0 * (rs.getD k (none, [])).2.getD i 0 = 1 := by
  unfold set_throughput_ax at ht
  unfold set_reciprocal_throughput_ax at hr
  cases hc1 : df.getCol y1 <;> simp only [hc1] at ht hr
  case none => exact Option.noConfusion ht
  case some c1 =>
  cases hc2 : df.getCol y2 <;> simp only [hc2] at ht hr
  case none => exact Option.noConfusion ht
  case some c2 =>
  cases y3 with
  | none =>
    simp only [Option.some.injEq] at ht hr
    subst ht; subst hr
    rcases k with _ | _ | k
    · exact ⟨c1, ⟨y1, hc1⟩, rfl, rfl, fun i hi hv =>
        seriesDiv_getD_mul_inv df.index c1 i hi hv⟩
    · exact ⟨c2, ⟨y2, hc2⟩, rfl, rfl, fun i hi hv =>
        seriesDiv_getD_mul_inv df.index c2 i hi hv⟩
    · simp only [List.length_cons, List.length_nil] at hk
      omega
  | some y =>
    cases hc3 : df.getCol y <;> simp only [hc3] at ht hr
    case none => exact Option.noConfusion ht
    case some c3 =>
    simp only [Option.some.injEq] at ht hr
    subst ht; subst hr
    rcases k with _ | _ | _ | k
    · exact ⟨c1, ⟨y1, hc1⟩, rfl, rfl, fun i hi hv =>
        seriesDiv_getD_mul_inv df.index c1 i hi hv⟩
    · exact ⟨c2, ⟨y2, hc2⟩, rfl, rfl, fun i hi hv =>
        seriesDiv_getD_mul_inv df.index c2 i hi hv⟩
    · exact ⟨c3, ⟨y, hc3⟩, rfl, rfl, fun i hi hv =>
        seriesDiv_getD_mul_inv df.index c3 i hi hv⟩
    · simp only [List.length_cons, List.length_nil] at hk
      omega

/-- Witness for C1: the sample table, columns `std_min` and
`parse_integer_no_simd_min`, series 0. -/
theorem C1_throughput_reciprocal_inverse_witness :
    ∃ c : List ℚ, (∃ y, dfEx.getCol y = some c) ∧
      (([(some "a", seriesDiv dfEx.index [10, 20, 30]),
         (some "b", seriesDiv dfEx.index [12, 22, 32])] : List Series).getD 0 (none, [])).2 =
        seriesDiv dfEx.index c ∧
      (([(some "a", seriesDiv [10, 20, 30] dfEx.index),
         (some "b", seriesDiv [12, 22, 32] dfEx.index)] : List Series).getD 0 (none, [])).2 =
        seriesDiv c dfEx.index ∧
      ∀ i : ℕ, dfEx.index.getD i 0 ≠ 0 → c.getD i 0 ≠ 0 →
        (([(some "a", seriesDiv dfEx.index [10, 20, 30]),
           (some "b", seriesDiv dfEx.index [12, 22, 32])] : List Series).getD 0 (none, [])).2.getD i 0 *
        (([(some "a", seriesDiv [10, 20, 30] dfEx.index),
           (some "b", seriesDiv [12, 22, 32] dfEx.index)] : List Series).getD 0 (none, [])).2.getD i 0 = 1 :=
  C1_throughput_reciprocal_inverse dfEx "std_min" "a" "parse_integer_no_simd_min" "b" none none
    [(some "a", seriesDiv dfEx.index [10, 20, 30]), (some "b", seriesDiv dfEx.index [12, 22, 32])]
    [(some "a", seriesDiv [10, 20, 30] dfEx.index), (some "b", seriesDiv [12, 22, 32] dfEx.index)]
    rfl rfl 0 (by simp)

/-- C2: for every statistic whose lowercase form is "min", "mean" or "max",
column derivation returns exactly the five documented column names, built
from the lowercased statistic, in the documented fixed order. -/
theorem C2_column_derivation (stat : String)
    (h : pyLower stat ∈ (["min", "mean", "max"] : List String)) :
    get_column_to_plot stat =
      .ok ["std_" ++ pyLower stat, "parse_integer_no_simd_" ++ pyLower stat,
        "std_delimeter_" ++ pyLower stat, "parse_integer_no_simd_delimeter_" ++ pyLower stat,
        "parse_integer_simd_delimeter_" ++ pyLower stat] :=
  gcp_ok stat h

/-- Witness for C2 at the mixed-case statistic "MAX". -/
theorem C2_column_derivation_witness :
    get_column_to_plot "MAX" =
      .ok ["std_" ++ pyLower "MAX", "parse_integer_no_simd_" ++ pyLower "MAX",
        "std_delimeter_" ++ pyLower "MAX", "parse_integer_no_simd_delimeter_" ++ pyLower "MAX",
        "parse_integer_simd_delimeter_" ++ pyLower "MAX"] :=
  C2_column_derivation "MAX" (by decide)

/-- C3 (counterexample): on the table with index [1, 2, 4] and `std_min`
[10, 20, 30], the throughput view does NOT plot [10, 10, 7.5]; the code
plots index/column, which is [1/10, 1/10, 2/15]. -/
theorem C3_counterexample :
    (set_throughput_ax dfEx "std_min" "a" "std_min" "b" none none).map
      (fun l => (l.getD 0 (none, [])).2) ≠ some [10, 10, 15/2] := by
  have hred : (set_throughput_ax dfEx "std_min" "a" "std_min" "b" none none).map
      (fun l => (l.getD 0 (none, [])).2) = some (seriesDiv dfEx.index [10, 20, 30]) := rfl
  rw [hred]
  norm_num [seriesDiv, dfEx, List.zipWith]

/-- C3 (amended): on the table with index [1, 2, 4] and `std_min`
[10, 20, 30], the throughput view plots [1/10, 1/10, 2/15]
(0.1, 0.1, 0.1333…) and the reciprocal throughput view plots [10, 10, 15/2]
(10.0, 10.0, 7.5) — the two value lists of the original claim, swapped. -/
theorem C3_example_values :
    (set_throughput_ax dfEx "std_min" "a" "std_min" "b" none none).map
      (fun l => (l.getD 0 (none, [])).2) = some [1/10, 1/10, 2/15] ∧
    (set_reciprocal_throughput_ax dfEx "std_min" "a" "std_min" "b" none none).map
      (fun l => (l.getD 0 (none, [])).2) = some [10, 10, 15/2] := by
  constructor
  · have hred : (set_throughput_ax dfEx "std_min" "a" "std_min" "b" none none).map
        (fun l => (l.getD 0 (none, [])).2) = some (seriesDiv dfEx.index [10, 20, 30]) := rfl
    rw [hred]
    norm_num [seriesDiv, dfEx, List.zipWith]
  · have hred : (set_reciprocal_throughput_ax dfEx "std_min" "a" "std_min" "b" none none).map
        (fun l => (l.getD 0 (none, [])).2) = some (seriesDiv [10, 20, 30] dfEx.index) := rfl
    rw [hred]
    norm_num [seriesDiv, dfEx, List.zipWith]
example : get_column_to_plot "MIN" =
    .ok ["std_min", "parse_integer_no_simd_min", "std_delimeter_min",
      "parse_integer_no_simd_delimeter_min", "parse_integer_simd_delimeter_min"] := rfl
example : seriesDiv dfEx.index [10, 20, 30] = [1/10, 1/10, 2/15] := by
  norm_num [seriesDiv, dfEx, List.zipWith]
example : set_throughput_ax dfEx "std_min" "a" "std_min" "b" none none =
    some [(some "a", seriesDiv dfEx.index [10, 20, 30]),
      (some "b", seriesDiv dfEx.index [10, 20, 30])] := rfl
example : runPlot fsEx "data.csv" "mean" = .plotError := rfl
example : main fsEx ["plot.py", "data.csv", "mean", "extra"] =
    runPlot fsEx "data.csv" "min" := rfl


/-- C4 (counterexample): with the extra argument "extra" after the
statistic, `sys.argv[2] = "mean"` is NOT used as the statistic: the run
behaves exactly like a run with the default statistic "min", and in
particular does not fail on the missing `_mean` columns, while a run that
actually used "mean" on this table would end in a column KeyError. -/
theorem C4_counterexample :
    main fsEx ["plot.py", "data.csv", "mean", "extra"] = runPlot fsEx "data.csv" "min" ∧
    runPlot fsEx "data.csv" "mean" = .plotError ∧
    runPlot fsEx "data.csv" "min" ≠ .plotError := by
  refine ⟨rfl, rfl, ?_⟩
  have hok := runPlot_ok fsEx "data.csv" "min" dfEx
    [10, 20, 30] [12, 22, 32] [14, 24, 34] [16, 26, 36] [18, 28, 38]
    (by decide) rfl rfl rfl rfl rfl rfl
  rw [hok]
  exact fun hcontra => MainResult.noConfusion hcontra

/-- C4 (amended): the second command-line argument is used as the statistic
exactly when it is the last argument, i.e. when `sys.argv` has length 3;
with only the CSV path, or with any further arguments after the statistic,
the statistic silently defaults to "min". -/
theorem C4_task_resolution (fs : String → Option DataFrame) (prog csv stat : String) :
    main fs [prog, csv, stat] = runPlot fs csv stat ∧
    main fs [prog, csv] = runPlot fs csv "min" ∧
    ∀ extra rest, main fs (prog :: csv :: stat :: extra :: rest) = runPlot fs csv "min" := by
  refine ⟨rfl, rfl, fun extra rest => ?_⟩
  simp only [main, resolveTask, List.length_cons, List.getD_cons_succ, List.getD_cons_zero]
  rw [if_neg (by omega), if_neg (by omega)]

/-- Witness for C4 (amended): a four-argument invocation runs with the
default statistic "min". -/
theorem C4_task_resolution_witness :
    main fsEx ["plot.py", "data.csv", "mean", "extra"] = runPlot fsEx "data.csv" "min" :=
  (C4_task_resolution fsEx "plot.py" "data.csv" "mean").2.2 "extra" []

/-- C5: for every file system and every invocation `prog csv stat` whose
statistic is not (case-insensitively) one of min/mean/max, `main` exits with
status 1 after printing the usage text and then the specific error text to
stderr; the outcome is the same for every file system, so the CSV is never
read. -/
theorem C5_invalid_stat_exits (fs : String → Option DataFrame) (prog csv stat : String)
    (h : pyLower stat ∉ (["min", "mean", "max"] : List String)) :
    main fs [prog, csv, stat] = .exited [USAGE_STR, STAT_ERROR_STR] 1 ∧
    ∀ fs' : String → Option DataFrame,
      main fs [prog, csv, stat] = main fs' [prog, csv, stat] := by
  have key : ∀ g : String → Option DataFrame,
      main g [prog, csv, stat] = .exited [USAGE_STR, STAT_ERROR_STR] 1 := by
    intro g
    have hg : get_column_to_plot stat = .error ([USAGE_STR, STAT_ERROR_STR], 1) := by
      rw [get_column_to_plot, if_pos h]
    have hm : main g [prog, csv, stat] = runPlot g csv stat := rfl
    rw [hm, runPlot, hg]
  exact ⟨key fs, fun fs' => (key fs).trans (key fs').symm⟩

/-- Witness for C5 at the invalid statistic "median". -/
theorem C5_invalid_stat_exits_witness :
    main (fun _ => none) ["plot.py", "bench.csv", "median"] =
      .exited [USAGE_STR, STAT_ERROR_STR] 1 ∧
    ∀ fs' : String → Option DataFrame,
      main (fun _ => none) ["plot.py", "bench.csv", "median"] =
        main fs' ["plot.py", "bench.csv", "median"] :=
  C5_invalid_stat_exits (fun _ => none) "plot.py" "bench.csv" "median" (by decide)

/-- C6: with no arguments after the program name (and also with an empty
argument vector), `main` exits with status 1 and prints the usage text
(followed by the missing-file error) to stderr; the outcome does not depend
on the file system, so the CSV is never read. -/
theorem C6_no_args_exits (fs : String → Option DataFrame) (prog : String) :
    main fs [prog] = .exited [USAGE_STR, NO_INPUT_ERROR_STR] 1 ∧
    main fs [] = .exited [USAGE_STR, NO_INPUT_ERROR_STR] 1 :=
  ⟨rfl, rfl⟩

/-- C7: in each of the three rendering functions, a third series is plotted
if and only if a third column name is supplied: each successfully rendered
axis holds 3 series when `y3` is present and exactly 2 when it is absent. -/
theorem C7_third_series_iff (df : DataFrame) (y1 l1 y2 l2 : String) (y3 l3 : Option String) :
    (∀ s, set_tsc_cycle_ax df y1 l1 y2 l2 y3 l3 = some s →
      s.length = if y3.isSome then 3 else 2) ∧
    (∀ s, set_throughput_ax df y1 l1 y2 l2 y3 l3 = some s →
      s.length = if y3.isSome then 3 else 2) ∧
    (∀ s, set_reciprocal_throughput_ax df y1 l1 y2 l2 y3 l3 = some s →
      s.length = if y3.isSome then 3 else 2) := by
  refine ⟨fun s hs => ?_, fun s hs => ?_, fun s hs => ?_⟩
  · unfold set_tsc_cycle_ax at hs
    split at hs <;> (try split at hs) <;> (try injection hs with hs) <;> (try subst hs) <;> simp_all
  · unfold set_throughput_ax at hs
    split at hs <;> (try split at hs) <;> (try injection hs with hs) <;> (try subst hs) <;> simp_all
  · unfold set_reciprocal_throughput_ax at hs
    split at hs <;> (try split at hs) <;> (try injection hs with hs) <;> (try subst hs) <;> simp_all

/-- Witness for C7: a two-series latency axis on the sample table. -/
theorem C7_third_series_iff_witness :
    ([(some "a", ([10, 20, 30] : List ℚ)), (some "b", [10, 20, 30])] : List Series).length =
      if (none : Option String).isSome then 3 else 2 :=
  (C7_third_series_iff dfEx "std_min" "a" "std_min" "b" none none).1
    [(some "a", [10, 20, 30]), (some "b", [10, 20, 30])] rfl

/-- C8: for every run `prog csv` (default statistic "min") on a CSV that
loads and contains the five expected `_min` columns, `main` completes
without error, performing exactly two comparison renderings: the first with
2 series (derived columns 1 and 2) and the second with 3 series (derived
columns 3, 4 and 5), in every view. -/
theorem C8_two_renderings (fs : String → Option DataFrame) (prog csv : String)
    (df : DataFrame) (c1 c2 c3 c4 c5 : List ℚ)
    (hfs : fs csv = some df)
    (h1 : df.getCol "std_min" = some c1)
    (h2 : df.getCol "parse_integer_no_simd_min" = some c2)
    (h3 : df.getCol "std_delimeter_min" = some c3)
    (h4 : df.getCol "parse_integer_no_simd_delimeter_min" = some c4)
    (h5 : df.getCol "parse_integer_simd_delimeter_min" = some c5) :
    ∃ f1 f2, main fs [prog, csv] = .ok [f1, f2] ∧
      f1.latency = [(some "naive method (min)", c1),
        (some "no simd library parsing (min)", c2)] ∧
      f1.throughput.length = 2 ∧ f1.recip_throughput.length = 2 ∧
      f2.latency = [(some "naive method (min)", c3),
        (some "no simd library parsing (min)", c4),
        (some "simd library parsing (min)", c5)] ∧
      f2.throughput.length = 3 ∧ f2.recip_throughput.length = 3 := by
  have hmain : main fs [prog, csv] = runPlot fs csv "min" := rfl
  have hrun := runPlot_ok fs csv "min" df c1 c2 c3 c4 c5 (by decide) hfs h1 h2 h3 h4 h5
  exact ⟨_, _, hmain.trans hrun, rfl, rfl, rfl, rfl, rfl, rfl⟩

/-- Witness for C8 on the sample table. -/
theorem C8_two_renderings_witness :
    ∃ f1 f2, main fsEx ["plot.py", "data.csv"] = .ok [f1, f2] ∧
      f1.latency = [(some "naive method (min)", ([10, 20, 30] : List ℚ)),
        (some "no simd library parsing (min)", [12, 22, 32])] ∧
      f1.throughput.length = 2 ∧ f1.recip_throughput.length = 2 ∧
      f2.latency = [(some "naive method (min)", ([14, 24, 34] : List ℚ)),
        (some "no simd library parsing (min)", [16, 26, 36]),
        (some "simd library parsing (min)", [18, 28, 38])] ∧
      f2.throughput.length = 3 ∧ f2.recip_throughput.length = 3 :=
  C8_two_renderings fsEx "plot.py" "data.csv" dfEx
    [10, 20, 30] [12, 22, 32] [14, 24, 34] [16, 26, 36] [18, 28, 38]
    rfl rfl rfl rfl rfl rfl

/-- C9: for every statistic whose lowercase form is "min", "mean" or "max",
`get_column_to_plot` returns normally with a column list: the usage/exit
branch inside it is unreachable, and being a total Lean function the
embedding performs no side effects and never raises. -/
theorem C9_valid_stat_pure (stat : String)
    (h : pyLower stat ∈ (["min", "mean", "max"] : List String)) :
    ∃ cols, get_column_to_plot stat = .ok cols :=
  ⟨_, gcp_ok stat h⟩

/-- Witness for C9 at the mixed-case statistic "MeAn". -/
theorem C9_valid_stat_pure_witness :
    ∃ cols, get_column_to_plot "MeAn" = .ok cols :=
  C9_valid_stat_pure "MeAn" (by decide)

/-- C10: for every valid statistic, the five derived column names embed the
lowercased statistic while the legend labels built in `main` embed the
statistic exactly as the user typed it. -/
theorem C10_lowercase_columns_verbatim_labels (stat : String)
    (h : pyLower stat ∈ (["min", "mean", "max"] : List String))
    (fs : String → Option DataFrame) (prog csv : String) (df : DataFrame)
    (c1 c2 c3 c4 c5 : List ℚ)
    (hfs : fs csv = some df)
    (h1 : df.getCol ("std_" ++ pyLower stat) = some c1)
    (h2 : df.getCol ("parse_integer_no_simd_" ++ pyLower stat) = some c2)
    (h3 : df.getCol ("std_delimeter_" ++ pyLower stat) = some c3)
    (h4 : df.getCol ("parse_integer_no_simd_delimeter_" ++ pyLower stat) = some c4)
    (h5 : df.getCol ("parse_integer_simd_delimeter_" ++ pyLower stat) = some c5) :
    get_column_to_plot stat =
      .ok ["std_" ++ pyLower stat, "parse_integer_no_simd_" ++ pyLower stat,
        "std_delimeter_" ++ pyLower stat, "parse_integer_no_simd_delimeter_" ++ pyLower stat,
        "parse_integer_simd_delimeter_" ++ pyLower stat] ∧
    ∃ f1 f2, main fs [prog, csv, stat] = .ok [f1, f2] ∧
      f1.latency.map Prod.fst =
        [some ("naive method (" ++ stat ++ ")"),
         some ("no simd library parsing (" ++ stat ++ ")")] ∧
      f2.latency.map Prod.fst =
        [some ("naive method (" ++ stat ++ ")"),
         some ("no simd library parsing (" ++ stat ++ ")"),
         some ("simd library parsing (" ++ stat ++ ")")] := by
  have hmain : main fs [prog, csv, stat] = runPlot fs csv stat := rfl
  have hrun := runPlot_ok fs csv stat df c1 c2 c3 c4 c5 h hfs h1 h2 h3 h4 h5
  exact ⟨gcp_ok stat h, _, _, hmain.trans hrun, rfl, rfl⟩

/-- Witness for C10 at the upper-case statistic "MIN" on the sample table:
columns come out lowercase, labels keep "MIN". -/
theorem C10_lowercase_columns_verbatim_labels_witness :
    get_column_to_plot "MIN" =
      .ok ["std_" ++ pyLower "MIN", "parse_integer_no_simd_" ++ pyLower "MIN",
        "std_delimeter_" ++ pyLower "MIN", "parse_integer_no_simd_delimeter_" ++ pyLower "MIN",
        "parse_integer_simd_delimeter_" ++ pyLower "MIN"] ∧
    ∃ f1 f2, main fsEx ["plot.py", "data.csv", "MIN"] = .ok [f1, f2] ∧
      f1.latency.map Prod.fst =
        [some ("naive method (" ++ "MIN" ++ ")"),
         some ("no simd library parsing (" ++ "MIN" ++ ")")] ∧
      f2.latency.map Prod.fst =
        [some ("naive method (" ++ "MIN" ++ ")"),
         some ("no simd library parsing (" ++ "MIN" ++ ")"),
         some ("simd library parsing (" ++ "MIN" ++ ")")] :=
  C10_lowercase_columns_verbatim_labels "MIN" (by decide) fsEx "plot.py" "data.csv" dfEx
    [10, 20, 30] [12, 22, 32] [14, 24, 34] [16, 26, 36] [18, 28, 38]
    rfl rfl rfl rfl rfl rfl

end Plot
